import Mathlib

/-!
Verification of the session-based codegen engine and browser lifecycle of
the volt-agent-playwright repository.

The definitions below are a shallow embedding of the TypeScript sources:
 * `src/tools/codegen/generator.ts` (class PlaywrightGenerator),
 * `src/tools/browser/playwrightToolHandler.ts` (ensureBrowser, resetBrowserState),
 * the navigation tools file (closeBrowserTool).

Modelling conventions:
 * JavaScript parameter values (the `unknown` values stored in
   `Record<string, unknown>` maps) are modelled by the `JsValue` scalars
   (string, integer number, boolean, null); truthiness and template-literal
   rendering follow the ECMAScript rules for those scalars.
 * A parameters record is an association list; property access is the first
   binding for the key (JS objects have at most one binding per key).
 * `Date.now()` timestamps are passed in explicitly as `Int` arguments.
 * The filesystem is a store mapping paths to JSON documents;
   `JSON.stringify`/`JSON.parse` are modelled at the JSON-tree level.
-/

/-- A JavaScript value as stored in an action's parameters record. -/
inductive JsValue where
  | str : String → JsValue
  | num : Int → JsValue
  | bool : Bool → JsValue
  | null : JsValue
deriving DecidableEq, Repr

/-- ECMAScript truthiness of a `JsValue` (empty string, 0, false, null are falsy). -/
def JsValue.truthy : JsValue → Bool
  | .str s => !(s == "")
  | .num n => !(n == 0)
  | .bool b => b
  | .null => false

/-- Rendering of a `JsValue` inside a template literal (ECMAScript ToString). -/
def JsValue.render : JsValue → String
  | .str s => s
  | .num n => toString n
  | .bool b => if b then "true" else "false"
  | .null => "null"

/-- A `Record<string, unknown>` parameters object. -/
def Params := List (String × JsValue)

instance : DecidableEq Params := by unfold Params; infer_instance

instance : Repr Params := by unfold Params; infer_instance

/-- Property access `parameters.k`: the first binding for `k`, if any
(an absent property reads as `undefined`). -/
def lookupParam (parameters : Params) (k : String) : Option JsValue :=
  (parameters.find? (fun p => p.1 == k)).map (·.2)

/-- The recurring TS pattern `parameters.k ? \x60${parameters.k}\x60 : '""'`:
a truthy value is rendered inside backticks, anything else (absent value
included) becomes the two-character placeholder `""`. -/
def quoteParam (v : Option JsValue) : String :=
  match v with
  | some v => if v.truthy then "\x60" ++ v.render ++ "\x60" else "\"\""
  | none => "\"\""

/-- Shorthand for `quoteParam (lookupParam parameters k)`, the rendering of
one named parameter within a statement. -/
def param (parameters : Params) (k : String) : String :=
  quoteParam (lookupParam parameters k)

/- The per-tool step generators of PlaywrightGenerator (generator.ts). -/

def generateNavigateStep (parameters : Params) : String :=
  "await page.goto(" ++ param parameters "url" ++ ");"

def generateGoBackStep (_parameters : Params) : String :=
  "await page.goBack();"

def generateGoForwardStep (_parameters : Params) : String :=
  "await page.goForward();"

def generateRefreshPageStep (_parameters : Params) : String :=
  "await page.reload();"

def generateCloseBrowserStep : String :=
  "await browser.close();"

def generateFillStep (parameters : Params) : String :=
  "await page.fill(" ++ param parameters "selector" ++ ", " ++ param parameters "text" ++ ");"

def generateClickStep (parameters : Params) : String :=
  "await page.click(" ++ param parameters "selector" ++ ");"

def generateGetTextStep (parameters : Params) : String :=
  "const text = await page.textContent(" ++ param parameters "selector" ++ ");"

def generateSelectStep (parameters : Params) : String :=
  "await page.selectOption(" ++ param parameters "selector" ++ ", " ++ param parameters "value" ++ ");"

def generateCheckStep (parameters : Params) : String :=
  "await page.check(" ++ param parameters "selector" ++ ");"

def generateUncheckStep (parameters : Params) : String :=
  "await page.uncheck(" ++ param parameters "selector" ++ ");"

def generateHoverStep (parameters : Params) : String :=
  "await page.hover(" ++ param parameters "selector" ++ ");"

def generatePressKeyStep (parameters : Params) : String :=
  "await page.press(" ++ param parameters "key" ++ ");"

def generateWaitForElementStep (parameters : Params) : String :=
  "await page.waitForSelector(" ++ param parameters "selector" ++ ");"

def generateScreenshotStep (parameters : Params) : String :=
  "await page.screenshot(\x7b path: " ++ param parameters "path" ++ " \x7d);"

def generateSaveToFileStep (parameters : Params) : String :=
  "await fs.writeFile(" ++ param parameters "filePath" ++ ", " ++ param parameters "data" ++ ");"

def generateExportPdfStep (parameters : Params) : String :=
  "await page.pdf(\x7b path: " ++ param parameters "path" ++ " \x7d);"

def generateExtractDataStep (_parameters : Params) : String :=
  "// Extract data logic here"

def generateExpectResponseStep (parameters : Params) : String :=
  "await page.waitForResponse(response => response.url() === " ++ param parameters "url" ++ ");"

def generateAssertResponseStep (parameters : Params) : String :=
  "const response = await page.waitForResponse(" ++ param parameters "url" ++ ");"

def generateCustomUserAgentStep (parameters : Params) : String :=
  "await context.setUserAgent(" ++ param parameters "userAgent" ++ ");"

def generateGetUserAgentStep : String :=
  "const userAgent = await context.userAgent();"

def generateGetVisibleTextStep (parameters : Params) : String :=
  "const visibleText = await page.locator(" ++ param parameters "selector" ++ ").textContent();"

def generateGetVisibleHtmlStep (parameters : Params) : String :=
  "const visibleHtml = await page.locator(" ++ param parameters "selector" ++ ").innerHTML();"

def generateListInteractiveElementsStep : String :=
  "const elements = await page.$$(\x27a, button, [tabindex], [contenteditable]);"

/-- Embeds `PlaywrightGenerator.convertActionToStep`: the switch on the tool name.
`none` is the default branch, which logs the non-fatal warning
`Unsupported tool: ...` and produces no statement. -/
def convertActionToStep (toolName : String) (parameters : Params) : Option String :=
  match toolName with
  | "playwright_navigate" | "navigate" => some (generateNavigateStep parameters)
  | "goBack" => some (generateGoBackStep parameters)
  | "goForward" => some (generateGoForwardStep parameters)
  | "refreshPage" => some (generateRefreshPageStep parameters)
  | "closeBrowser" => some generateCloseBrowserStep
  | "playwright_fill" | "type" => some (generateFillStep parameters)
  | "playwright_click" | "click" => some (generateClickStep parameters)
  | "getTextTool" => some (generateGetTextStep parameters)
  | "playwright_select" | "selectOption" => some (generateSelectStep parameters)
  | "check" => some (generateCheckStep parameters)
  | "uncheck" => some (generateUncheckStep parameters)
  | "playwright_hover" | "hover" => some (generateHoverStep parameters)
  | "pressKey" => some (generatePressKeyStep parameters)
  | "waitForElement" => some (generateWaitForElementStep parameters)
  | "playwright_screenshot" | "screenshot" => some (generateScreenshotStep parameters)
  | "saveToFile" => some (generateSaveToFileStep parameters)
  | "exportPdf" => some (generateExportPdfStep parameters)
  | "extractData" => some (generateExtractDataStep parameters)
  | "playwright_expect_response" | "expectResponse" => some (generateExpectResponseStep parameters)
  | "playwright_assert_response" | "assertResponse" => some (generateAssertResponseStep parameters)
  | "playwright_custom_user_agent" | "setUserAgent" => some (generateCustomUserAgentStep parameters)
  | "getUserAgent" => some generateGetUserAgentStep
  | "getVisibleText" => some (generateGetVisibleTextStep parameters)
  | "getVisibleHtml" => some (generateGetVisibleHtmlStep parameters)
  | "listInteractiveElements" => some generateListInteractiveElementsStep
  | _ => none

/-- The keys of the translation table: exactly the case labels of the switch
in `convertActionToStep`. -/
def supportedTools : List String :=
  ["playwright_navigate", "navigate", "goBack", "goForward", "refreshPage",
   "closeBrowser", "playwright_fill", "type", "playwright_click", "click",
   "getTextTool", "playwright_select", "selectOption", "check", "uncheck",
   "playwright_hover", "hover", "pressKey", "waitForElement",
   "playwright_screenshot", "screenshot", "saveToFile", "exportPdf",
   "extractData", "playwright_expect_response", "expectResponse",
   "playwright_assert_response", "assertResponse",
   "playwright_custom_user_agent", "setUserAgent", "getUserAgent",
   "getVisibleText", "getVisibleHtml", "listInteractiveElements"]

/-- Membership of a tool name in the translation table. -/
def supported (toolName : String) : Bool :=
  supportedTools.contains toolName


/-- Embeds `CodegenOptions` with every field present, as after merging with
`DEFAULT_OPTIONS` (`Required<CodegenOptions>`). The field `testNamePfx`
embeds the source field `testNamePrefix`. -/
structure ReqCodegenOptions where
  outputPath : String
  testNamePfx : String
  includeComments : Bool
deriving DecidableEq, Repr

/-- Embeds `PlaywrightGenerator.DEFAULT_OPTIONS`. -/
def DEFAULT_OPTIONS : ReqCodegenOptions :=
  { outputPath := "tests", testNamePfx := "VoltTest", includeComments := true }

/-- A recorded `CodegenAction` (generator.ts `addAction` shape). -/
structure CodegenAction where
  toolName : String
  parameters : Params
  timestamp : Int
  result : Option JsValue
deriving DecidableEq, Repr

/-- A `CodegenSession` of the in-memory registry. -/
structure CodegenSession where
  id : String
  actions : List CodegenAction
  startTime : Int
  endTime : Option Int
  options : ReqCodegenOptions
deriving DecidableEq, Repr

/-- A `PlaywrightTestCase`: the JS `Set` of imports is modelled as the list of
its elements in insertion order. -/
structure PlaywrightTestCase where
  name : String
  steps : List String
  imports : List String
deriving DecidableEq, Repr

/-! Date rendering used by `createTestCase`:
`new Date(session.startTime).toISOString().split("T")[0]`. -/

/-- Civil date (year, month, day) from a count of days since 1970-01-01
(proleptic Gregorian calendar, the ECMAScript date model). -/
def civilFromDays (z0 : Int) : Int × Int × Int :=
  let z := z0 + 719468
  let era : Int := Int.fdiv z 146097
  let doe : Int := z - era * 146097
  let yoe : Int := Int.fdiv (doe - Int.fdiv doe 1460 + Int.fdiv doe 36524 - Int.fdiv doe 146096) 365
  let y : Int := yoe + era * 400
  let doy : Int := doe - (365 * yoe + Int.fdiv yoe 4 - Int.fdiv yoe 100)
  let mp : Int := Int.fdiv (5 * doy + 2) 153
  let d : Int := doy - Int.fdiv (153 * mp + 2) 5 + 1
  let m : Int := mp + (if mp < 10 then 3 else -9)
  (y + (if m ≤ 2 then 1 else 0), m, d)

/-- Zero-pad a (non-negative) integer to two digits. -/
def pad2 (n : Int) : String :=
  if n < 10 then "0" ++ toString n else toString n

/-- Zero-pad a (non-negative) integer to four digits. -/
def pad4 (n : Int) : String :=
  if n < 10 then "000" ++ toString n
  else if n < 100 then "00" ++ toString n
  else if n < 1000 then "0" ++ toString n
  else toString n

/-- The date component of `Date.prototype.toISOString` (i.e.
`toISOString().split("T")[0]`) for an epoch-milliseconds timestamp whose
year lies in 0..9999. -/
def isoDatePart (ms : Int) : String :=
  let c := civilFromDays (Int.fdiv ms 86400000)
  pad4 c.1 ++ "-" ++ pad2 c.2.1 ++ "-" ++ pad2 c.2.2

/-- The `for (const action of session.actions)` loop of `createTestCase`:
returns the pushed steps together with the number of
`Unsupported tool` warnings logged by `convertActionToStep`. -/
def processActions : List CodegenAction → List String × Nat
  | [] => ([], 0)
  | a :: rest =>
    let r := processActions rest
    match convertActionToStep a.toolName a.parameters with
    | some s => (s :: r.1, r.2)
    | none => (r.1, r.2 + 1)

/-- Embeds `PlaywrightGenerator.createTestCase`. `opts` is the generator instance's
`this.options`; the `imports` Set is created holding `test` and `expect`
and is never mutated afterwards. -/
def createTestCase (opts : ReqCodegenOptions) (session : CodegenSession) : PlaywrightTestCase :=
  { name := opts.testNamePfx ++ "_" ++ isoDatePart session.startTime,
    steps := (processActions session.actions).1,
    imports := ["test", "expect"] }

/-- The number of `Unsupported tool` diagnostics emitted while generating a
test from the given session. -/
def warnCount (session : CodegenSession) : Nat :=
  (processActions session.actions).2

/-- The rendered import block of `generateTestCode`. -/
def importBlock (tc : PlaywrightTestCase) : String :=
  String.intercalate "\n"
    (tc.imports.map (fun imp => "import \x7b " ++ imp ++ " \x7d from \x27@playwright/test\x27;"))

/-- Embeds `PlaywrightGenerator.generateTestCode`: the template literal rendering
the complete test source text. -/
def generateTestCode (tc : PlaywrightTestCase) : String :=
  "\n\n" ++ importBlock tc ++ "\n\ntest(\x27" ++ tc.name ++
    "\x27, async (\x7b page, context \x7d) => \x7b\n  " ++
    String.intercalate "\n" tc.steps ++ "\n\x7d);"

/-- The generated test text of `generateTest` for a session, given the
generator's options. -/
def generatedText (opts : ReqCodegenOptions) (session : CodegenSession) : String :=
  generateTestCode (createTestCase opts session)

/-! The in-memory session registry (`PlaywrightGenerator.activeSessions`),
modelled as an association list keyed by session id (a JS `Map`; at most one
binding per key, first binding wins on lookup). -/

def Registry := List (String × CodegenSession)

instance : DecidableEq Registry := by unfold Registry; infer_instance

/-- Embeds `activeSessions.get(sessionId)`. -/
def regGet (reg : Registry) (sessionId : String) : Option CodegenSession :=
  (reg.find? (fun p => p.1 == sessionId)).map (·.2)

/-- Embeds `activeSessions.set(sessionId, session)`: replaces an existing binding
for the key, otherwise appends a new one. -/
def regSet (reg : Registry) (sessionId : String) (session : CodegenSession) : Registry :=
  match reg with
  | [] => [(sessionId, session)]
  | p :: rest =>
    if p.1 == sessionId then (sessionId, session) :: rest
    else p :: regSet rest sessionId session

/-- Embeds `PlaywrightGenerator.addAction`: looks the session up; an unknown id
returns `null` (modelled `none`) and changes nothing; otherwise a timestamped
action is appended to the session's action list and returned. `now` is the
value of `Date.now()`. -/
def addAction (reg : Registry) (sessionId toolName : String) (parameters : Params)
    (result : Option JsValue) (now : Int) : Registry × Option CodegenAction :=
  match regGet reg sessionId with
  | none => (reg, none)
  | some session =>
    let action : CodegenAction :=
      { toolName := toolName, parameters := parameters, timestamp := now, result := result }
    (regSet reg sessionId { session with actions := session.actions ++ [action] }, some action)

/-- Embeds `PlaywrightGenerator.endSession`: stamps `endTime` if the session exists,
returns `null` (modelled `none`) otherwise. -/
def endSession (reg : Registry) (sessionId : String) (now : Int) :
    Registry × Option CodegenSession :=
  match regGet reg sessionId with
  | none => (reg, none)
  | some session =>
    let ended := { session with endTime := some now }
    (regSet reg sessionId ended, some ended)

/-- Embeds `PlaywrightGenerator.getSession`: a plain registry lookup
(`undefined`, modelled `none`, for an unknown id). -/
def getSession (reg : Registry) (sessionId : String) : Option CodegenSession :=
  regGet reg sessionId

/-! Session persistence: `JSON.stringify`/`JSON.parse` are modelled at the
level of JSON documents; the filesystem is a store from paths to documents. -/

/-- A JSON document. -/
inductive Json where
  | str : String → Json
  | num : Int → Json
  | bool : Bool → Json
  | null : Json
  | arr : List Json → Json
  | obj : List (String × Json) → Json

/-- Serialization of a parameter value (JSON scalars serialize to themselves). -/
def jsValueToJson : JsValue → Json
  | .str s => .str s
  | .num n => .num n
  | .bool b => .bool b
  | .null => .null

/-- Deserialization of a parameter value. -/
def jsonToJsValue : Json → Option JsValue
  | .str s => some (.str s)
  | .num n => some (.num n)
  | .bool b => some (.bool b)
  | .null => some (.null)
  | .arr _ => none
  | .obj _ => none

/-- Embeds `JSON.stringify` of one action: properties in creation order; the
optional `result` is omitted when `undefined`. -/
def actionToJson (a : CodegenAction) : Json :=
  .obj ([("toolName", .str a.toolName),
         ("parameters", .obj (a.parameters.map (fun p => (p.1, jsValueToJson p.2)))),
         ("timestamp", .num a.timestamp)] ++
        (match a.result with
         | some r => [("result", jsValueToJson r)]
         | none => []))

/-- Embeds `JSON.stringify` of the options record. The JSON key `testNamePrefix`
corresponds to the Lean field `testNamePfx`. -/
def optionsToJson (o : ReqCodegenOptions) : Json :=
  .obj [("outputPath", .str o.outputPath),
        ("testNamePrefix", .str o.testNamePfx),
        ("includeComments", .bool o.includeComments)]

/-- Embeds `JSON.stringify(session, null, 2)` as a JSON document: properties in
creation order (`endTime` is set after creation, hence last, and omitted
while `undefined`). -/
def sessionToJson (s : CodegenSession) : Json :=
  .obj ([("id", .str s.id),
         ("actions", .arr (s.actions.map actionToJson)),
         ("startTime", .num s.startTime),
         ("options", optionsToJson s.options)] ++
        (match s.endTime with
         | some t => [("endTime", .num t)]
         | none => []))

/-- Property lookup in a parsed JSON object. -/
def jsonGet (fields : List (String × Json)) (k : String) : Option Json :=
  (fields.find? (fun p => p.1 == k)).map (·.2)

/-- Reading a parameters record back from parsed JSON. -/
def jsonToParams : List (String × Json) → Option Params
  | [] => some []
  | (k, v) :: rest =>
    match jsonToJsValue v, jsonToParams rest with
    | some w, some ps => some ((k, w) :: ps)
    | _, _ => none

/-- Reading one action back from parsed JSON. -/
def jsonToAction (j : Json) : Option CodegenAction :=
  match j with
  | .obj fields =>
    match jsonGet fields "toolName", jsonGet fields "parameters",
          jsonGet fields "timestamp" with
    | some (.str toolName), some (.obj rawParams), some (.num timestamp) =>
      match jsonToParams rawParams with
      | some parameters =>
        match jsonGet fields "result" with
        | some r =>
          match jsonToJsValue r with
          | some result => some { toolName, parameters, timestamp, result := some result }
          | none => none
        | none => some { toolName, parameters, timestamp, result := none }
      | none => none
    | _, _, _ => none
  | _ => none

/-- Reading the options record back from parsed JSON. -/
def jsonToOptions (j : Json) : Option ReqCodegenOptions :=
  match j with
  | .obj fields =>
    match jsonGet fields "outputPath", jsonGet fields "testNamePrefix",
          jsonGet fields "includeComments" with
    | some (.str outputPath), some (.str pfx), some (.bool includeComments) =>
      some { outputPath, testNamePfx := pfx, includeComments }
    | _, _, _ => none
  | _ => none

/-- Reading a list of actions back from parsed JSON. -/
def jsonToActions : List Json → Option (List CodegenAction)
  | [] => some []
  | j :: rest =>
    match jsonToAction j, jsonToActions rest with
    | some a, some as0 => some (a :: as0)
    | _, _ => none

/-- Reading a whole session back from parsed JSON (`JSON.parse` followed by
the `as CodegenSession` view of the record). -/
def jsonToSession (j : Json) : Option CodegenSession :=
  match j with
  | .obj fields =>
    match jsonGet fields "id", jsonGet fields "actions",
          jsonGet fields "startTime", jsonGet fields "options" with
    | some (.str id), some (.arr rawActions), some (.num startTime), some jopts =>
      match jsonToActions rawActions, jsonToOptions jopts with
      | some actions, some options =>
        match jsonGet fields "endTime" with
        | some (.num t) =>
          some { id, actions, startTime, endTime := some t, options }
        | some _ => none
        | none => some { id, actions, startTime, endTime := none, options }
      | _, _ => none
    | _, _, _, _ => none
  | _ => none

/-- The filesystem, as a store of JSON documents keyed by path. -/
def Store := List (String × Json)

/-- Embeds `fs.readFile` followed by `JSON.parse` of a stored document. -/
def storeGet (store : Store) (filePath : String) : Option Json :=
  (store.find? (fun p => p.1 == filePath)).map (·.2)

/-- Embeds `fs.writeFile` of a document. -/
def storeSet (store : Store) (filePath : String) (doc : Json) : Store :=
  match store with
  | [] => [(filePath, doc)]
  | p :: rest =>
    if p.1 == filePath then (filePath, doc) :: rest
    else p :: storeSet rest filePath doc

/-- The sessions directory used by save/load:
`directory || path.join(this.options.outputPath, "sessions")`. -/
def sessionsDir (opts : ReqCodegenOptions) (directory : Option String) : String :=
  directory.getD (opts.outputPath ++ "/sessions")

/-- Embeds `PlaywrightGenerator.saveSessionToDisk`: an unknown id throws (modelled
`none`); otherwise the session is serialized to
`{dir}/session-{session.id}.json` and the path is returned. -/
def saveSessionToDisk (reg : Registry) (store : Store) (opts : ReqCodegenOptions)
    (sessionId : String) (directory : Option String) : Option (String × Store) :=
  match regGet reg sessionId with
  | none => none
  | some session =>
    let filePath := sessionsDir opts directory ++ "/session-" ++ session.id ++ ".json"
    some (filePath, storeSet store filePath (sessionToJson session))

/-- Embeds `PlaywrightGenerator.loadSessionFromDisk`: reads and parses
`{dir}/session-{sessionId}.json` (a read or parse failure throws, modelled
`none`) and re-registers the loaded session under its own id. -/
def loadSessionFromDisk (reg : Registry) (store : Store) (opts : ReqCodegenOptions)
    (sessionId : String) (directory : Option String) :
    Option (CodegenSession × Registry) :=
  let filePath := sessionsDir opts directory ++ "/session-" ++ sessionId ++ ".json"
  match storeGet store filePath with
  | none => none
  | some doc =>
    match jsonToSession doc with
    | none => none
    | some session => some (session, regSet reg session.id session)

/-! Browser lifecycle (`playwrightToolHandler.ts` and the navigation tools
file). Sequential semantics: the `isInitializing` flag only matters for
interleaved callers, so for consecutive calls by one caller it is always
false at entry and restored to false on exit. Handles are given fresh
numeric identities by a counter so that distinct launches are
distinguishable. -/

/-- A Playwright `Browser` handle. -/
structure BrowserH where
  hid : Nat
  connected : Bool
deriving DecidableEq, Repr

/-- A Playwright `Page` handle. -/
structure PageH where
  pid : Nat
  closed : Bool
deriving DecidableEq, Repr

/-- The browser-related fields of a `ToolContext`. -/
structure ToolCtx where
  browser : Option BrowserH
  page : Option PageH
deriving DecidableEq, Repr

/-- The world an execution context lives in: the context, a fresh-identity
counter for newly created handles, how many times `chromium.launch` has run,
and whether a launch attempt would succeed. -/
structure BrowserWorld where
  ctx : ToolCtx
  nextHandle : Nat
  launchCount : Nat
  launchOk : Bool
deriving DecidableEq, Repr

/-- Embeds `ensureBrowser(context)`: if the context holds no browser or a
disconnected one, launch a new browser and open a fresh context/page
(a launch failure is rethrown); otherwise, if the page is missing
or closed, open a new page in the existing browser; otherwise return the
stored handles unchanged. -/
def ensureBrowser (w : BrowserWorld) : Except String (BrowserWorld × BrowserH × PageH) :=
  let needLaunch :=
    match w.ctx.browser with
    | none => true
    | some b => !b.connected
  if needLaunch then
    if w.launchOk then
      let b : BrowserH := { hid := w.nextHandle, connected := true }
      let p : PageH := { pid := w.nextHandle + 1, closed := false }
      .ok ({ w with
              ctx := { browser := some b, page := some p },
              nextHandle := w.nextHandle + 2,
              launchCount := w.launchCount + 1 }, b, p)
    else
      .error "Failed to initialize browser"
  else
    match w.ctx.browser with
    | some b =>
      let needPage :=
        match w.ctx.page with
        | none => true
        | some p => p.closed
      if needPage then
        let p : PageH := { pid := w.nextHandle, closed := false }
        .ok ({ w with
                ctx := { w.ctx with page := some p },
                nextHandle := w.nextHandle + 1 }, b, p)
      else
        match w.ctx.page with
        | some p => .ok (w, b, p)
        | none => .error "unreachable"
    | none => .error "unreachable"

/-- Embeds `resetBrowserState(context?)`: when a context is passed, both of its
handles are cleared; when called with no argument (`none`), nothing but a
log line happens and `none` is returned (there is no context to update). -/
def resetBrowserState (context : Option ToolCtx) : Option ToolCtx :=
  match context with
  | some c => some { c with browser := none, page := none }
  | none => none

/-- Embeds `closeBrowserTool.execute`: when the context holds a browser handle, the
close is attempted for a connected browser (`closeOutcomeOk` says whether
`browser.close()` succeeds; a rejection is swallowed by the attached
rejection handler and the surrounding `try`), and the `finally` block calls `resetBrowserState()`
WITHOUT an argument — so the caller's context is only replaced if the callee
returned an updated one, which it cannot, having received `none`. The
returned string is the tool's result payload; no outcome raises. -/
def closeBrowserTool (ctx : ToolCtx) (closeOutcomeOk : Bool) : ToolCtx × String :=
  match ctx.browser with
  | some _ =>
    -- `browser.close().catch(...)` or the `already disconnected` log: either
    -- way every failure is caught, then `finally { resetBrowserState(); }`.
    let _ := closeOutcomeOk
    let ctx2 :=
      match resetBrowserState none with
      | some updated => updated
      | none => ctx
    (ctx2, "Browser closed successfully")
  | none => (ctx, "No browser instance to close")

/-!
Helper lemmas shared by the claim theorems.
-/

set_option maxHeartbeats 1000000 in
/-- A tool name is in the translation table exactly when
`convertActionToStep` produces a statement for it. -/
theorem convert_isSome (n : String) (ps : Params) :
    (convertActionToStep n ps).isSome = supported n := by
  unfold convertActionToStep
  split <;> simp_all [supported, supportedTools]

set_option maxHeartbeats 1000000 in
/-- Translation only reads parameters through `param`: two parameter records
that render every key identically translate identically for every tool. -/
theorem convert_congr (n : String) (ps1 ps2 : Params)
    (h : ∀ k, param ps1 k = param ps2 k) :
    convertActionToStep n ps1 = convertActionToStep n ps2 := by
  unfold convertActionToStep
  split <;>
    simp_all [generateNavigateStep, generateGoBackStep, generateGoForwardStep,
      generateRefreshPageStep, generateFillStep, generateClickStep,
      generateGetTextStep, generateSelectStep, generateCheckStep,
      generateUncheckStep, generateHoverStep, generatePressKeyStep,
      generateWaitForElementStep, generateScreenshotStep, generateSaveToFileStep,
      generateExportPdfStep, generateExtractDataStep, generateExpectResponseStep,
      generateAssertResponseStep, generateCustomUserAgentStep,
      generateGetVisibleTextStep, generateGetVisibleHtmlStep]

/-- The generation loop emits exactly the translations of the supported
actions, in order, and one warning per unsupported action. -/
theorem processActions_spec (actions : List CodegenAction) :
    processActions actions =
      ((actions.filter (fun a => supported a.toolName)).map
        (fun a => (convertActionToStep a.toolName a.parameters).getD ""),
       (actions.filter (fun a => !supported a.toolName)).length) := by
  induction actions with
  | nil => rfl
  | cons a rest ih =>
    by_cases h : supported a.toolName = true
    · have hs : (convertActionToStep a.toolName a.parameters).isSome = true := by
        rw [convert_isSome]; exact h
      obtain ⟨s, hs⟩ := Option.isSome_iff_exists.mp hs
      simp [processActions, ih, hs, List.filter_cons, h]
    · have hs : convertActionToStep a.toolName a.parameters = none := by
        have hb := convert_isSome a.toolName a.parameters
        cases hc : convertActionToStep a.toolName a.parameters with
        | none => rfl
        | some s => rw [hc] at hb; simp at hb; exact absurd hb h
      simp [processActions, ih, hs, List.filter_cons, h]

/-- Prepending a falsy binding for a key that is otherwise absent does not
change how any key renders. -/
theorem param_cons_falsy (ps : Params) (k : String) (v : JsValue)
    (hv : v.truthy = false) (habs : lookupParam ps k = none) :
    ∀ key, param ((k, v) :: ps) key = param ps key := by
  intro key
  by_cases hk : k = key
  · subst hk
    have h1 : lookupParam ((k, v) :: ps) k = some v := by
      simp [lookupParam, List.find?]
    rw [param, param, h1, habs]
    simp [quoteParam, hv]
  · have hk' : (k == key) = false := by simp [hk]
    have h1 : lookupParam ((k, v) :: ps) key = lookupParam ps key := by
      simp [lookupParam, List.find?, hk']
    rw [param, param, h1]

/-- Scalar parameter values survive serialization unchanged. -/
theorem jsValue_roundtrip (v : JsValue) :
    jsonToJsValue (jsValueToJson v) = some v := by
  cases v <;> rfl

/-- Parameter records survive serialization unchanged. -/
theorem params_roundtrip (ps : Params) :
    jsonToParams (ps.map (fun p => (p.1, jsValueToJson p.2))) = some ps := by
  induction ps with
  | nil => rfl
  | cons p rest ih =>
    simp [jsonToParams, jsValue_roundtrip, ih]

/-- Actions survive serialization unchanged. -/
theorem action_roundtrip (a : CodegenAction) :
    jsonToAction (actionToJson a) = some a := by
  cases a with
  | mk toolName parameters timestamp result =>
    cases result with
    | none =>
      simp [actionToJson, jsonToAction, jsonGet, List.find?, params_roundtrip]
    | some r =>
      simp [actionToJson, jsonToAction, jsonGet, List.find?, params_roundtrip,
        jsValue_roundtrip]

/-- Options records survive serialization unchanged. -/
theorem options_roundtrip (o : ReqCodegenOptions) :
    jsonToOptions (optionsToJson o) = some o := by
  cases o; rfl

/-- Action lists survive serialization unchanged. -/
theorem actions_roundtrip (as0 : List CodegenAction) :
    jsonToActions (as0.map actionToJson) = some as0 := by
  induction as0 with
  | nil => rfl
  | cons a rest ih => simp [jsonToActions, action_roundtrip, ih]

/-- Whole sessions survive serialization unchanged, in every field. -/
theorem session_roundtrip (s : CodegenSession) :
    jsonToSession (sessionToJson s) = some s := by
  cases s with
  | mk id actions startTime endTime options =>
    cases endTime with
    | none =>
      simp [sessionToJson, jsonToSession, jsonGet, List.find?, actions_roundtrip,
        options_roundtrip]
    | some t =>
      simp [sessionToJson, jsonToSession, jsonGet, List.find?, actions_roundtrip,
        options_roundtrip]

/-- Reading back the path just written yields the document just written. -/
theorem storeGet_storeSet (store : Store) (p : String) (doc : Json) :
    storeGet (storeSet store p doc) p = some doc := by
  induction store with
  | nil => simp [storeSet, storeGet, List.find?]
  | cons q rest ih =>
    by_cases hq : q.1 = p
    · simp [storeSet, hq, storeGet, List.find?]
    · have hq' : (q.1 == p) = false := by simp [hq]
      simp [storeSet, storeGet, hq', List.find?] at ih ⊢
      exact ih

/-!
The claim theorems.
-/

/-- C1: for every session, generating the test produces exactly the source
lines of the actions whose tool name is in the translation table, in the
same relative order as they appear in the action list; each action whose
tool name is outside the table contributes no line and registers exactly one
non-fatal diagnostic, and translation of the remaining actions proceeds
normally. -/
theorem claim_c1_generation_supported_subset_and_diagnostics
    (opts : ReqCodegenOptions) (session : CodegenSession) :
    (createTestCase opts session).steps =
      (session.actions.filter (fun a => supported a.toolName)).map
        (fun a => (convertActionToStep a.toolName a.parameters).getD "") ∧
    warnCount session =
      (session.actions.filter (fun a => !supported a.toolName)).length := by
  unfold createTestCase warnCount
  rw [processActions_spec]
  exact ⟨rfl, rfl⟩

/-- C2 (amended): the generated test text is a pure function of the
generator's options together with the session's action list AND its start
time: two sessions with identical actions and identical start times generate
identical text whatever their ids, end times and stored options are. The
original claim, determinism over the start time, is false: see the
counterexample. -/
theorem claim_c2_generation_determined_by_actions_options_start
    (opts : ReqCodegenOptions) (s1 s2 : CodegenSession)
    (hact : s1.actions = s2.actions) (hstart : s1.startTime = s2.startTime) :
    generatedText opts s1 = generatedText opts s2 := by
  unfold generatedText generateTestCode createTestCase importBlock
  rw [hact, hstart]

/-- C2 witness: two sessions with the same actions and start time but
different ids, end times and stored options generate the same text. -/
theorem claim_c2_determinism_witness :
    generatedText DEFAULT_OPTIONS
      { id := "11111111-1111-4111-8111-111111111111",
        actions := [{ toolName := "click", parameters := [("selector", JsValue.str "#btn")],
                      timestamp := 5, result := none }],
        startTime := 0, endTime := none, options := DEFAULT_OPTIONS } =
    generatedText DEFAULT_OPTIONS
      { id := "22222222-2222-4222-8222-222222222222",
        actions := [{ toolName := "click", parameters := [("selector", JsValue.str "#btn")],
                      timestamp := 5, result := none }],
        startTime := 0, endTime := some 77,
        options := { DEFAULT_OPTIONS with includeComments := false } } :=
  claim_c2_generation_determined_by_actions_options_start DEFAULT_OPTIONS _ _ rfl rfl

/-- C2 counterexample: two sessions with identical action lists and
identical options but different start times (epoch 0 versus one year later)
generate different text — the test name embeds the session start date, so
generation is NOT a pure function of (actions, options) alone. -/
theorem claim_c2_startTime_counterexample :
    ({ id := "a", actions := [], startTime := 0, endTime := none,
       options := DEFAULT_OPTIONS } : CodegenSession).actions =
      ({ id := "b", actions := [], startTime := 31536000000, endTime := none,
         options := DEFAULT_OPTIONS } : CodegenSession).actions ∧
    ({ id := "a", actions := [], startTime := 0, endTime := none,
       options := DEFAULT_OPTIONS } : CodegenSession).options =
      ({ id := "b", actions := [], startTime := 31536000000, endTime := none,
         options := DEFAULT_OPTIONS } : CodegenSession).options ∧
    generatedText DEFAULT_OPTIONS
        { id := "a", actions := [], startTime := 0, endTime := none,
          options := DEFAULT_OPTIONS } ≠
      generatedText DEFAULT_OPTIONS
        { id := "b", actions := [], startTime := 31536000000, endTime := none,
          options := DEFAULT_OPTIONS } := by
  refine ⟨rfl, rfl, ?_⟩
  decide

/-- C3 (code bug): releasing via `closeBrowserTool` does NOT reset the
context's lifecycle state. The tool's `finally` block calls
`resetBrowserState()` with no argument, so the context's browser and page
handles survive the close untouched, whether the close succeeds or fails
(the failure itself is indeed swallowed and the tool still reports
`Browser closed successfully`). Calling `resetBrowserState` WITH the context,
as the spec describes, would clear both handles. -/
theorem claim_c3_close_browser_state_not_reset :
    (closeBrowserTool
        { browser := some { hid := 0, connected := true },
          page := some { pid := 1, closed := false } } true).1 =
      { browser := some { hid := 0, connected := true },
        page := some { pid := 1, closed := false } } ∧
    (closeBrowserTool
        { browser := some { hid := 0, connected := true },
          page := some { pid := 1, closed := false } } false) =
      ({ browser := some { hid := 0, connected := true },
         page := some { pid := 1, closed := false } }, "Browser closed successfully") ∧
    resetBrowserState
        (some { browser := some { hid := 0, connected := true },
                page := some { pid := 1, closed := false } }) =
      some { browser := none, page := none } := by
  decide

/-- C4: for a session id absent from the registry, append, close and fetch
all return the soft not-found value (`none`) and leave the registry exactly
as it was; none of them raises. -/
theorem claim_c4_unknown_session_soft_not_found
    (reg : Registry) (sessionId toolName : String) (ps : Params)
    (result : Option JsValue) (now now2 : Int)
    (h : regGet reg sessionId = none) :
    addAction reg sessionId toolName ps result now = (reg, none) ∧
    endSession reg sessionId now2 = (reg, none) ∧
    getSession reg sessionId = none := by
  unfold addAction endSession getSession
  simp [h]

/-- C4 witness: the empty registry at a concrete unknown id. -/
theorem claim_c4_not_found_witness :
    regGet [] "missing-id" = none ∧
    (addAction [] "missing-id" "click" [] none 0 = ([], none) ∧
     endSession [] "missing-id" 0 = ([], none) ∧
     getSession [] "missing-id" = none) :=
  ⟨rfl, claim_c4_unknown_session_soft_not_found [] "missing-id" "click" [] none 0 0 rfl⟩

/-- C5: every action whose tool name is in the translation table yields a
statement whatever its parameters are — absent parameters fall back to the
fixed placeholder instead of suppressing the line; in particular a click
with empty parameters yields a click statement whose selector is the
placeholder. -/
theorem claim_c5_supported_action_always_emits
    (toolName : String) (ps : Params) (h : supported toolName = true) :
    (convertActionToStep toolName ps).isSome = true ∧
    convertActionToStep "click" ([] : Params) = some "await page.click(\"\");" := by
  refine ⟨?_, rfl⟩
  rw [convert_isSome]
  exact h

/-- C5 witness: the click tool with a parameters record that lacks the
selector still emits a statement. -/
theorem claim_c5_emits_witness :
    supported "click" = true ∧
    ((convertActionToStep "click" ([("other", JsValue.str "x")] : Params)).isSome = true ∧
     convertActionToStep "click" ([] : Params) = some "await page.click(\"\");") :=
  ⟨rfl, claim_c5_supported_action_always_emits "click" [("other", JsValue.str "x")] rfl⟩

/-- C6: every legacy alias in the translation table produces, for every
parameters record, exactly the statement of its canonical counterpart. -/
theorem claim_c6_alias_matches_canonical (ps : Params) :
    convertActionToStep "playwright_navigate" ps = convertActionToStep "navigate" ps ∧
    convertActionToStep "playwright_click" ps = convertActionToStep "click" ps ∧
    convertActionToStep "playwright_fill" ps = convertActionToStep "type" ps ∧
    convertActionToStep "playwright_select" ps = convertActionToStep "selectOption" ps ∧
    convertActionToStep "playwright_hover" ps = convertActionToStep "hover" ps ∧
    convertActionToStep "playwright_screenshot" ps = convertActionToStep "screenshot" ps ∧
    convertActionToStep "playwright_expect_response" ps = convertActionToStep "expectResponse" ps ∧
    convertActionToStep "playwright_assert_response" ps = convertActionToStep "assertResponse" ps ∧
    convertActionToStep "playwright_custom_user_agent" ps = convertActionToStep "setUserAgent" ps :=
  ⟨rfl, rfl, rfl, rfl, rfl, rfl, rfl, rfl, rfl⟩

/-- C7: for every session present in the registry (under its own id),
saving and then loading from the same directory succeeds and yields a
session equal to the original in every field, re-registered in the store. -/
theorem claim_c7_save_load_round_trip
    (reg : Registry) (store : Store) (opts : ReqCodegenOptions)
    (sessionId : String) (directory : Option String) (s : CodegenSession)
    (h : regGet reg sessionId = some s) (hid : s.id = sessionId) :
    saveSessionToDisk reg store opts sessionId directory =
      some (sessionsDir opts directory ++ "/session-" ++ sessionId ++ ".json",
            storeSet store (sessionsDir opts directory ++ "/session-" ++ sessionId ++ ".json")
              (sessionToJson s)) ∧
    loadSessionFromDisk reg
        (storeSet store (sessionsDir opts directory ++ "/session-" ++ sessionId ++ ".json")
          (sessionToJson s))
        opts sessionId directory = some (s, regSet reg sessionId s) := by
  constructor
  · simp [saveSessionToDisk, h, hid]
  · simp [loadSessionFromDisk, storeGet_storeSet, session_roundtrip, hid]

/-- A concrete recorded action used by the C7 witness. -/
def demoAction7 : CodegenAction :=
  { toolName := "navigate",
    parameters := [("url", JsValue.str "https://example.com")],
    timestamp := 3,
    result := some (JsValue.bool true) }

/-- A concrete session (with a result-carrying action and an end time) used
by the C7 witness. -/
def demoSession7 : CodegenSession :=
  { id := "sid-1",
    actions := [demoAction7],
    startTime := 2,
    endTime := some 9,
    options := DEFAULT_OPTIONS }

/-- A concrete registry holding `demoSession7`. -/
def demoReg7 : Registry := [("sid-1", demoSession7)]

/-- The snapshot path of `demoSession7` under the default options. -/
def demoPath7 : String :=
  sessionsDir DEFAULT_OPTIONS none ++ "/session-" ++ "sid-1" ++ ".json"

/-- The store state after saving `demoSession7`. -/
def demoStore7 : Store := storeSet [] demoPath7 (sessionToJson demoSession7)

/-- C7 witness: the concrete session round-trips through disk, every field
intact. -/
theorem claim_c7_round_trip_witness :
    regGet demoReg7 "sid-1" = some demoSession7 ∧
    demoSession7.id = "sid-1" ∧
    (saveSessionToDisk demoReg7 [] DEFAULT_OPTIONS "sid-1" none =
        some (demoPath7, demoStore7) ∧
     loadSessionFromDisk demoReg7 demoStore7 DEFAULT_OPTIONS "sid-1" none =
        some (demoSession7, regSet demoReg7 "sid-1" demoSession7)) :=
  ⟨rfl, rfl,
   claim_c7_save_load_round_trip demoReg7 [] DEFAULT_OPTIONS "sid-1" none demoSession7 rfl rfl⟩

/-- C8: from an uninitialized context, two consecutive `ensureBrowser`
calls with no intervening release return the same browser and page handles,
the second call changes nothing, and the launch primitive runs exactly once
across the two calls. -/
theorem claim_c8_acquire_idempotent_one_launch
    (w : BrowserWorld) (hb : w.ctx.browser = none) (hok : w.launchOk = true) :
    ∃ w1 b p, ensureBrowser w = .ok (w1, b, p) ∧
      ensureBrowser w1 = .ok (w1, b, p) ∧
      w1.launchCount = w.launchCount + 1 := by
  refine ⟨{ w with
      ctx := { browser := some { hid := w.nextHandle, connected := true },
               page := some { pid := w.nextHandle + 1, closed := false } },
      nextHandle := w.nextHandle + 2,
      launchCount := w.launchCount + 1 },
    { hid := w.nextHandle, connected := true },
    { pid := w.nextHandle + 1, closed := false }, ?_, ?_, rfl⟩
  · unfold ensureBrowser
    rw [hb]
    simp [hok]
  · unfold ensureBrowser
    simp

/-- A fresh, uninitialized browser world for the C8 witness. -/
def demoWorld8 : BrowserWorld :=
  { ctx := { browser := none, page := none },
    nextHandle := 0,
    launchCount := 0,
    launchOk := true }

/-- C8 witness: the concrete fresh world launches once and the second
acquire returns the very same handles. -/
theorem claim_c8_idempotence_witness :
    demoWorld8.ctx.browser = none ∧
    demoWorld8.launchOk = true ∧
    ∃ w1 b p, ensureBrowser demoWorld8 = .ok (w1, b, p) ∧
      ensureBrowser w1 = .ok (w1, b, p) ∧
      w1.launchCount = demoWorld8.launchCount + 1 :=
  ⟨rfl, rfl, claim_c8_acquire_idempotent_one_launch demoWorld8 rfl rfl⟩

/-- C9: for every session and option set, the import list of the generated
test case is exactly the two baseline names `test` and `expect`, and the
rendered import block is the corresponding fixed two-line text — no
translated step ever contributes an import. -/
theorem claim_c9_import_block_constant
    (opts : ReqCodegenOptions) (session : CodegenSession) :
    (createTestCase opts session).imports = ["test", "expect"] ∧
    importBlock (createTestCase opts session) =
      "import \x7b test \x7d from \x27@playwright/test\x27;\nimport \x7b expect \x7d from \x27@playwright/test\x27;" :=
  ⟨rfl, rfl⟩

/-- C10: a parameter present with a falsy value renders exactly like an
absent parameter — prepending such a binding to a record in which the key
is absent changes no generated statement, for every tool name. -/
theorem claim_c10_falsy_equals_absent
    (toolName : String) (ps : Params) (k : String) (v : JsValue)
    (hv : v.truthy = false) (habs : lookupParam ps k = none) :
    convertActionToStep toolName ((k, v) :: ps) = convertActionToStep toolName ps :=
  convert_congr toolName _ _ (param_cons_falsy ps k v hv habs)

/-- C10 witness: a click whose selector is the empty string produces the
same statement as a click with no selector at all, namely the placeholder
click. -/
theorem claim_c10_falsy_witness :
    (JsValue.str "").truthy = false ∧
    lookupParam ([] : Params) "selector" = none ∧
    (convertActionToStep "click" [("selector", JsValue.str "")] =
        convertActionToStep "click" ([] : Params) ∧
     convertActionToStep "click" ([] : Params) = some "await page.click(\"\");") :=
  ⟨rfl, rfl, claim_c10_falsy_equals_absent "click" [] "selector" (JsValue.str "") rfl rfl, rfl⟩
